import Mathlib

/-!
Verification of the Drone Fleet Coordinator frontend (Team Xebec disaster
response dashboard) against its specification.

The observer state machine lives in `src/forntend/src/App.jsx`:
the fog-of-war scanned-cell grid (`scan_update` handler), the alert log
(`alert` handler with its `slice(-19)` bound), the survivor list, and the
100 ms throttle wrapper around `drone_update`. `RescueDashboard.jsx`
contributes the survivor sort, and the ESP32 firmware contributes the
`setMotors` mixing/clamping routine. The backend fleet store (`main.py`)
is not part of the sources; where a property is decided by it, the
definition is modelled from the specification text and marked as such.
-/

namespace DroneFleet

/-- `GRID_SIZE` constant from App.jsx (30×30 fog-of-war grid). -/
def GRID_SIZE : Nat := 30

/-- The scanned-cells grid as the frontend stores it: a list of rows of
booleans, `grid[y][x] = true` meaning cell `(x, y)` has been scanned. -/
abbrev Grid := List (List Bool)

/-- The fresh all-unscanned grid built in the `useState` initializer and in
the `connect` handler: `Array(GRID_SIZE).fill(...).map(() => Array(GRID_SIZE).fill(false))`. -/
def initialGrid : Grid :=
  List.replicate GRID_SIZE (List.replicate GRID_SIZE false)

/-- The bounds check of the `scan_update` handler:
`x >= 0 && x < GRID_SIZE && y >= 0 && y < GRID_SIZE`. -/
def inBoundsCell (c : Int × Int) : Bool :=
  decide (0 ≤ c.1 ∧ c.1 < (GRID_SIZE : Int) ∧ 0 ≤ c.2 ∧ c.2 < (GRID_SIZE : Int))

/-- One iteration of the `for (const [x, y] of data.cells)` loop body:
inside bounds, `newGrid[y][x] = true`; otherwise the cell is skipped. -/
def markCell (g : Grid) (x y : Int) : Grid :=
  if inBoundsCell (x, y) then
    g.set y.toNat ((g.getD y.toNat []).set x.toNat true)
  else g

/-- The `scan_update` handler's state update: fold the loop body over the
received cell list. -/
def scan_update (g : Grid) (cells : List (Int × Int)) : Grid :=
  cells.foldl (fun acc c => markCell acc c.1 c.2) g

/-- Reading a cell of the grid (out-of-range reads default to `false`,
matching `scannedCells[y]?.[x]` reads in MapCanvas). -/
def cellAt (g : Grid) (x y : Nat) : Bool :=
  (g.getD y []).getD x false

/-- Number of scanned cells, as in `scannedCells.flat().filter(Boolean).length`. -/
def scannedCount (g : Grid) : Nat :=
  (g.map (fun r => r.count true)).sum

/-- Events that touch the scanned-cell grid: a (re)connect resets it, a
`scan_update` marks cells. -/
inductive GridEvent where
  | connect
  | scanUpdate (cells : List (Int × Int))

/-- How the App reacts to a grid event: the `connect` handler installs a
fresh all-false grid; the `scan_update` handler marks cells. -/
def gridStep (g : Grid) : GridEvent → Grid
  | .connect => initialGrid
  | .scanUpdate cells => scan_update g cells

/-- A grid with the shape App.jsx maintains: 30 rows of 30 cells. -/
def wellFormedGrid (g : Grid) : Prop :=
  g.length = GRID_SIZE ∧ ∀ r ∈ g, r.length = GRID_SIZE

theorem getD_set_true (l : List Bool) (i j : Nat)
    (h : l.getD j false = true) : (l.set i true).getD j false = true := by
  induction l generalizing i j with
  | nil => simp at h
  | cons a t ih =>
    cases i with
    | zero =>
      cases j with
      | zero => simp
      | succ j => simpa using h
    | succ i =>
      cases j with
      | zero => simpa using h
      | succ j => simpa using ih i j (by simpa using h)

theorem getD_set_self_true (l : List Bool) (i : Nat) (h : i < l.length) :
    (l.set i true).getD i false = true := by
  induction l generalizing i with
  | nil => simp at h
  | cons a t ih =>
    cases i with
    | zero => simp
    | succ i => simpa using ih i (by simpa using h)

theorem count_true_le_set_true (l : List Bool) (i : Nat) :
    l.count true ≤ (l.set i true).count true := by
  induction l generalizing i with
  | nil => simp
  | cons a t ih =>
    cases i with
    | zero =>
      cases a <;> simp [List.count_cons]
    | succ i =>
      simpa [List.count_cons] using ih i

theorem cellAt_set_row (g : Grid) (m j x y : Nat)
    (h : cellAt g x y = true) :
    cellAt (g.set j ((g.getD j []).set m true)) x y = true := by
  induction g generalizing j y with
  | nil => simp [cellAt] at h
  | cons r t ih =>
    cases j with
    | zero =>
      cases y with
      | zero =>
        simpa [cellAt] using getD_set_true r m x (by simpa [cellAt] using h)
      | succ y => simpa [cellAt] using h
    | succ j =>
      cases y with
      | zero => simpa [cellAt] using h
      | succ y => simpa [cellAt] using ih j y (by simpa [cellAt] using h)

theorem cellAt_markCell (g : Grid) (a b : Int) (x y : Nat)
    (h : cellAt g x y = true) : cellAt (markCell g a b) x y = true := by
  unfold markCell
  split
  · exact cellAt_set_row g a.toNat b.toNat x y h
  · exact h

theorem cellAt_scan_update (g : Grid) (cells : List (Int × Int)) (x y : Nat)
    (h : cellAt g x y = true) : cellAt (scan_update g cells) x y = true := by
  induction cells generalizing g with
  | nil => exact h
  | cons c cs ih =>
    exact ih (markCell g c.1 c.2) (cellAt_markCell g c.1 c.2 x y h)

theorem scannedCount_set_row (g : Grid) (m j : Nat) :
    scannedCount g ≤ scannedCount (g.set j ((g.getD j []).set m true)) := by
  induction g generalizing j with
  | nil => simp
  | cons r t ih =>
    cases j with
    | zero =>
      simp only [List.set_cons_zero, List.getD_cons_zero, scannedCount,
        List.map_cons, List.sum_cons]
      exact Nat.add_le_add_right (count_true_le_set_true r m) _
    | succ j =>
      simp only [List.set_cons_succ, List.getD_cons_succ, scannedCount,
        List.map_cons, List.sum_cons]
      exact Nat.add_le_add_left (ih j) _

theorem scannedCount_le_markCell (g : Grid) (a b : Int) :
    scannedCount g ≤ scannedCount (markCell g a b) := by
  unfold markCell
  split
  · exact scannedCount_set_row g a.toNat b.toNat
  · exact Nat.le_refl _

theorem scannedCount_le_scan_update (g : Grid) (cells : List (Int × Int)) :
    scannedCount g ≤ scannedCount (scan_update g cells) := by
  induction cells generalizing g with
  | nil => exact Nat.le_refl _
  | cons c cs ih =>
    exact Nat.le_trans (scannedCount_le_markCell g c.1 c.2)
      (ih (markCell g c.1 c.2))

/-- The scan-progress fraction the App derives from the grid
(`exploredCells / totalCells`). -/
def coverage (g : Grid) : Rat :=
  (scannedCount g : Rat) / (GRID_SIZE * GRID_SIZE)

theorem getD_set_self (g : Grid) (j : Nat) (r : List Bool) (h : j < g.length) :
    (g.set j r).getD j [] = r := by
  induction g generalizing j with
  | nil => simp at h
  | cons a t ih =>
    cases j with
    | zero => simp
    | succ j => simpa using ih j (by simpa using h)

theorem wellFormedGrid_markCell (g : Grid) (a b : Int)
    (hg : wellFormedGrid g) : wellFormedGrid (markCell g a b) := by
  obtain ⟨hlen, hrows⟩ := hg
  unfold markCell
  split
  · rename_i hb
    refine ⟨by simpa using hlen, ?_⟩
    intro r hr
    rcases List.mem_or_eq_of_mem_set hr with hmem | heq
    · exact hrows r hmem
    · subst heq
      have hj : b.toNat < g.length := by
        simp only [inBoundsCell, decide_eq_true_eq] at hb
        omega
      rw [List.length_set, List.getD_eq_getElem _ _ hj]
      exact hrows _ (List.getElem_mem hj)
  · exact ⟨hlen, hrows⟩

theorem wellFormedGrid_scan_update (g : Grid) (cells : List (Int × Int))
    (hg : wellFormedGrid g) : wellFormedGrid (scan_update g cells) := by
  induction cells generalizing g with
  | nil => exact hg
  | cons c cs ih => exact ih _ (wellFormedGrid_markCell g c.1 c.2 hg)

theorem markCell_marks (g : Grid) (a b : Int) (hg : wellFormedGrid g)
    (hb : inBoundsCell (a, b) = true) :
    cellAt (markCell g a b) a.toNat b.toNat = true := by
  obtain ⟨hlen, hrows⟩ := hg
  simp only [inBoundsCell, decide_eq_true_eq] at hb
  have hj : b.toNat < g.length := by omega
  have hrow : (g.getD b.toNat []).length = GRID_SIZE := by
    rw [List.getD_eq_getElem _ _ hj]
    exact hrows _ (List.getElem_mem hj)
  have hm : a.toNat < (g.getD b.toNat []).length := by omega
  unfold markCell
  rw [if_pos (by simp only [inBoundsCell, decide_eq_true_eq]; omega)]
  unfold cellAt
  rw [getD_set_self g b.toNat _ hj]
  exact getD_set_self_true _ _ (by simpa using hm)

theorem scan_update_marks (g : Grid) (cells : List (Int × Int))
    (hg : wellFormedGrid g) :
    ∀ c ∈ cells, inBoundsCell c = true →
      cellAt (scan_update g cells) c.1.toNat c.2.toNat = true := by
  induction cells generalizing g with
  | nil => intro c hc; simp at hc
  | cons d cs ih =>
    intro c hc hb
    rcases List.mem_cons.mp hc with heq | hmem
    · subst heq
      exact cellAt_scan_update _ cs _ _
        (markCell_marks g c.1 c.2 hg (by simpa using hb))
    · exact ih (markCell g d.1 d.2) (wellFormedGrid_markCell g d.1 d.2 hg)
        c hmem hb

theorem scan_update_filter (g : Grid) (cells : List (Int × Int)) :
    scan_update g cells = scan_update g (cells.filter inBoundsCell) := by
  induction cells generalizing g with
  | nil => rfl
  | cons c cs ih =>
    by_cases h : inBoundsCell c = true
    · simp only [scan_update, List.foldl_cons, List.filter_cons, h,
        if_pos trivial] at *
      exact ih (markCell g c.1 c.2)
    · have hmk : markCell g c.1 c.2 = g := by
        unfold markCell
        rw [if_neg (by simpa using h)]
      simp only [scan_update, List.foldl_cons, List.filter_cons,
        Bool.not_eq_true] at *
      rw [hmk]
      simp only [h, Bool.false_eq_true, if_false]
      exact ih g

/-- C1: cells marked scanned by `scan_update` events only grow: a cell once
`true` is never reset by a `scan_update`, the scanned count and coverage
fraction are monotonically non-decreasing, and the only grid event that
resets the grid is the `connect` (session-restart) handler, which installs
the all-`false` grid. -/
theorem c1_coverage_monotone (g : Grid) (cells : List (Int × Int)) (x y : Nat)
    (h : cellAt g x y = true) :
    cellAt (scan_update g cells) x y = true ∧
    scannedCount g ≤ scannedCount (scan_update g cells) ∧
    coverage g ≤ coverage (scan_update g cells) ∧
    gridStep g GridEvent.connect = initialGrid := by
  refine ⟨cellAt_scan_update g cells x y h,
    scannedCount_le_scan_update g cells, ?_, rfl⟩
  unfold coverage
  have hle : (scannedCount g : Rat) ≤ (scannedCount (scan_update g cells) : Rat) := by
    exact_mod_cast scannedCount_le_scan_update g cells
  exact div_le_div_of_nonneg_right hle (by norm_num [GRID_SIZE])

/-- Witness for C1 at a concrete grid: mark cell (0,0), then apply a
further `scan_update` for cell (5,5) and observe (0,0) stays scanned. -/
theorem c1_coverage_monotone_witness :
    cellAt (scan_update initialGrid [((0 : Int), (0 : Int))]) 0 0 = true ∧
    (cellAt (scan_update (scan_update initialGrid [((0 : Int), (0 : Int))])
        [((5 : Int), (5 : Int))]) 0 0 = true ∧
      scannedCount (scan_update initialGrid [((0 : Int), (0 : Int))]) ≤
        scannedCount (scan_update (scan_update initialGrid
          [((0 : Int), (0 : Int))]) [((5 : Int), (5 : Int))]) ∧
      coverage (scan_update initialGrid [((0 : Int), (0 : Int))]) ≤
        coverage (scan_update (scan_update initialGrid
          [((0 : Int), (0 : Int))]) [((5 : Int), (5 : Int))]) ∧
      gridStep (scan_update initialGrid [((0 : Int), (0 : Int))])
        GridEvent.connect = initialGrid) :=
  ⟨by decide, c1_coverage_monotone _ [((5 : Int), (5 : Int))] 0 0 (by decide)⟩

/-- C8: out-of-bounds cells in a `scan_update` batch are silently ignored:
the result equals the update restricted to the in-bounds cells, the grid
keeps its 30×30 shape (no out-of-bounds write), and every in-bounds cell
of the batch is still marked. -/
theorem c8_out_of_bounds_ignored (g : Grid) (cells : List (Int × Int))
    (hg : wellFormedGrid g) :
    scan_update g cells = scan_update g (cells.filter inBoundsCell) ∧
    wellFormedGrid (scan_update g cells) ∧
    (∀ c ∈ cells, inBoundsCell c = true →
      cellAt (scan_update g cells) c.1.toNat c.2.toNat = true) :=
  ⟨scan_update_filter g cells, wellFormedGrid_scan_update g cells hg,
    scan_update_marks g cells hg⟩

/-- Witness for C8: a batch mixing out-of-bounds cells (-1,5) and (31,2)
with the in-bounds cell (3,4), applied to the fresh grid. -/
theorem c8_out_of_bounds_ignored_witness :
    wellFormedGrid initialGrid ∧
    (scan_update initialGrid
        [((-1 : Int), (5 : Int)), ((31 : Int), (2 : Int)), ((3 : Int), (4 : Int))] =
      scan_update initialGrid
        ([((-1 : Int), (5 : Int)), ((31 : Int), (2 : Int)),
          ((3 : Int), (4 : Int))].filter inBoundsCell) ∧
      wellFormedGrid (scan_update initialGrid
        [((-1 : Int), (5 : Int)), ((31 : Int), (2 : Int)), ((3 : Int), (4 : Int))]) ∧
      (∀ c ∈ [((-1 : Int), (5 : Int)), ((31 : Int), (2 : Int)),
          ((3 : Int), (4 : Int))], inBoundsCell c = true →
        cellAt (scan_update initialGrid
          [((-1 : Int), (5 : Int)), ((31 : Int), (2 : Int)),
            ((3 : Int), (4 : Int))]) c.1.toNat c.2.toNat = true)) :=
  ⟨by unfold wellFormedGrid; decide,
    c8_out_of_bounds_ignored initialGrid _ (by unfold wellFormedGrid; decide)⟩

/-- A survivor record as kept in the App's `survivors` state and shown by
RescueDashboard (`id`, position, detection `confidence`, `rescued` flag,
`rescue_drone`, `detected_by`). -/
structure Survivor where
  id : String
  x : Int
  y : Int
  confidence : Rat
  rescued : Bool
  rescue_drone : Option String
  detected_by : String
deriving DecidableEq, Inhabited

/-- The payload carried by an alert: the detected survivor for
`SURVIVOR_DETECTED`, or the `{survivor_id, drone_id}` pair for
`RESCUE_NEEDED`. -/
inductive AlertPayload where
  | survivor (s : Survivor)
  | rescue (survivor_id : String) (drone_id : String)
deriving DecidableEq

/-- An alert event as received by the `alert` socket handler. -/
structure AlertMsg where
  type : String
  message : String
  payload : Option AlertPayload
deriving DecidableEq

/-- The slice of App state touched by the `alert` handler: the alert log
and the survivor list. -/
structure ObserverState where
  alerts : List AlertMsg
  survivors : List Survivor
deriving DecidableEq

/-- `setAlerts((prev) => [...prev.slice(-19), data])`: keep the last 19
entries of the log and append the new alert. -/
def publishAlert (log : List AlertMsg) (a : AlertMsg) : List AlertMsg :=
  log.drop (log.length - 19) ++ [a]

/-- The SURVIVOR_DETECTED branch: `prev.find(s => s.id === payload.id)`
keeps the list unchanged, otherwise the payload is appended. -/
def addSurvivor (l : List Survivor) (s : Survivor) : List Survivor :=
  if l.any (fun t => t.id = s.id) then l else l ++ [s]

/-- The RESCUE_NEEDED branch: map over the survivor list, setting
`rescued: true, rescue_drone: payload.drone_id` on every record whose id
matches `payload.survivor_id`. -/
def applyRescue (l : List Survivor) (sid did : String) : List Survivor :=
  l.map (fun s =>
    if s.id = sid then { s with rescued := true, rescue_drone := some did }
    else s)

/-- The `alert` socket handler of App.jsx: append to the bounded alert log,
then run the SURVIVOR_DETECTED branch and the RESCUE_NEEDED branch. -/
def handleAlert (st : ObserverState) (a : AlertMsg) : ObserverState :=
  let alerts1 := publishAlert st.alerts a
  let survivors1 :=
    if a.type = "SURVIVOR_DETECTED" then
      match a.payload with
      | some (.survivor s) => addSurvivor st.survivors s
      | _ => st.survivors
    else st.survivors
  let survivors2 :=
    if a.type = "RESCUE_NEEDED" then
      match a.payload with
      | some (.rescue sid did) => applyRescue survivors1 sid did
      | _ => survivors1
    else survivors1
  { alerts := alerts1, survivors := survivors2 }

/-- A SURVIVOR_DETECTED alert carrying survivor `s`. -/
def detectMsg (s : Survivor) : AlertMsg :=
  { type := "SURVIVOR_DETECTED", message := "Survivor detected",
    payload := some (.survivor s) }

/-- A RESCUE_NEEDED alert for survivor `sid` assigned to drone `did`. -/
def rescueMsg (sid did : String) : AlertMsg :=
  { type := "RESCUE_NEEDED", message := "Rescue dispatched",
    payload := some (.rescue sid did) }

/-- A sample survivor used by concrete witnesses and counterexamples. -/
def sampleSurvivor : Survivor :=
  { id := "S-1", x := 100, y := 200, confidence := 9 / 10, rescued := false,
    rescue_drone := none, detected_by := "Drone-1" }

/-- C5: publishing an alert onto the bounded log: the log update of the
handler is `publishAlert`; under the ≤ 20-entry invariant the result has at
most 20 entries with the new alert last; within capacity the log is purely
appended, and at capacity exactly the oldest entry is evicted, the rest
keeping their order. -/
theorem c5_alert_log_bounded (st : ObserverState) (a : AlertMsg)
    (h : st.alerts.length ≤ 20) :
    (handleAlert st a).alerts = publishAlert st.alerts a ∧
    (publishAlert st.alerts a).length ≤ 20 ∧
    (publishAlert st.alerts a).getLast? = some a ∧
    (st.alerts.length ≤ 19 → publishAlert st.alerts a = st.alerts ++ [a]) ∧
    (st.alerts.length = 20 →
      publishAlert st.alerts a = st.alerts.drop 1 ++ [a]) := by
  refine ⟨rfl, ?_, ?_, ?_, ?_⟩
  · simp only [publishAlert, List.length_append, List.length_drop,
      List.length_cons, List.length_nil]
    omega
  · simp [publishAlert]
  · intro h19
    have : st.alerts.length - 19 = 0 := by omega
    simp [publishAlert, this]
  · intro h20
    have : st.alerts.length - 19 = 1 := by omega
    simp [publishAlert, this]

/-- Witness for C5 at a concrete log of length 20: the new alert evicts
exactly the oldest entry. -/
theorem c5_alert_log_bounded_witness :
    (List.replicate 20 (detectMsg sampleSurvivor)).length ≤ 20 ∧
    ((handleAlert ⟨List.replicate 20 (detectMsg sampleSurvivor), []⟩
        (rescueMsg "S-1" "D-1")).alerts =
      publishAlert (List.replicate 20 (detectMsg sampleSurvivor))
        (rescueMsg "S-1" "D-1") ∧
    (publishAlert (List.replicate 20 (detectMsg sampleSurvivor))
        (rescueMsg "S-1" "D-1")).length ≤ 20 ∧
    (publishAlert (List.replicate 20 (detectMsg sampleSurvivor))
        (rescueMsg "S-1" "D-1")).getLast? = some (rescueMsg "S-1" "D-1") ∧
    ((List.replicate 20 (detectMsg sampleSurvivor)).length ≤ 19 →
      publishAlert (List.replicate 20 (detectMsg sampleSurvivor))
          (rescueMsg "S-1" "D-1") =
        List.replicate 20 (detectMsg sampleSurvivor) ++ [rescueMsg "S-1" "D-1"]) ∧
    ((List.replicate 20 (detectMsg sampleSurvivor)).length = 20 →
      publishAlert (List.replicate 20 (detectMsg sampleSurvivor))
          (rescueMsg "S-1" "D-1") =
        (List.replicate 20 (detectMsg sampleSurvivor)).drop 1 ++
          [rescueMsg "S-1" "D-1"])) :=
  ⟨by decide, c5_alert_log_bounded
    ⟨List.replicate 20 (detectMsg sampleSurvivor), []⟩
    (rescueMsg "S-1" "D-1") (by decide)⟩

theorem handleAlert_detect (st : ObserverState) (s : Survivor) :
    handleAlert st (detectMsg s) =
      { alerts := publishAlert st.alerts (detectMsg s),
        survivors := addSurvivor st.survivors s } := by
  simp [handleAlert, detectMsg]

theorem handleAlert_rescue (st : ObserverState) (sid did : String) :
    handleAlert st (rescueMsg sid did) =
      { alerts := publishAlert st.alerts (rescueMsg sid did),
        survivors := applyRescue st.survivors sid did } := by
  simp [handleAlert, rescueMsg]

/-- Counterexample to C3: two SURVIVOR_DETECTED events for the same
survivor id on a fresh state give one survivor record but TWO
SURVIVOR_DETECTED alerts in the log, not one — the handler appends every
alert event to the log unconditionally. -/
theorem c3_counterexample :
    ((handleAlert (handleAlert ⟨[], []⟩ (detectMsg sampleSurvivor))
        (detectMsg sampleSurvivor)).survivors.countP
      (fun t => t.id = "S-1") = 1) ∧
    ((handleAlert (handleAlert ⟨[], []⟩ (detectMsg sampleSurvivor))
        (detectMsg sampleSurvivor)).alerts.countP
      (fun a => a.type = "SURVIVOR_DETECTED") = 2) ∧
    ¬ ((handleAlert (handleAlert ⟨[], []⟩ (detectMsg sampleSurvivor))
        (detectMsg sampleSurvivor)).alerts.countP
      (fun a => a.type = "SURVIVOR_DETECTED") = 1) := by
  decide

/-- C3 (amended): duplicate SURVIVOR_DETECTED events for one survivor id
are idempotent on the survivor list — exactly one record results — but the
alert log gains one entry per event, so two events leave two
SURVIVOR_DETECTED alerts in the log (within the 20-entry bound). -/
theorem c3_amended (st : ObserverState) (s : Survivor)
    (hnew : st.survivors.countP (fun t => t.id = s.id) = 0)
    (hroom : st.alerts.length ≤ 18)
    (hlog : st.alerts.countP (fun a => a.type = "SURVIVOR_DETECTED") = 0) :
    (handleAlert (handleAlert st (detectMsg s)) (detectMsg s)).survivors =
      (handleAlert st (detectMsg s)).survivors ∧
    (handleAlert (handleAlert st (detectMsg s)) (detectMsg s)).survivors.countP
      (fun t => t.id = s.id) = 1 ∧
    (handleAlert (handleAlert st (detectMsg s)) (detectMsg s)).alerts.countP
      (fun a => a.type = "SURVIVOR_DETECTED") = 2 := by
  have hany : st.survivors.any (fun t => t.id = s.id) = false := by
    rw [List.any_eq_false]
    intro x hx
    simpa using List.countP_eq_zero.mp hnew x hx
  have h1s : (handleAlert st (detectMsg s)).survivors = st.survivors ++ [s] := by
    rw [handleAlert_detect]
    simp [addSurvivor, hany]
  have h1a : (handleAlert st (detectMsg s)).alerts =
      st.alerts ++ [detectMsg s] := by
    have hz : st.alerts.length - 19 = 0 := by omega
    rw [handleAlert_detect]
    simp [publishAlert, hz]
  have hany2 : (st.survivors ++ [s]).any (fun t => t.id = s.id) = true := by
    simp
  have h2s : (handleAlert (handleAlert st (detectMsg s))
      (detectMsg s)).survivors = st.survivors ++ [s] := by
    rw [handleAlert_detect (handleAlert st (detectMsg s)) s]
    simp only [h1s]
    simp [addSurvivor, hany2]
  have h2a : (handleAlert (handleAlert st (detectMsg s)) (detectMsg s)).alerts =
      st.alerts ++ [detectMsg s] ++ [detectMsg s] := by
    have hz : st.alerts.length - 18 = 0 := by omega
    rw [handleAlert_detect (handleAlert st (detectMsg s)) s]
    simp only [h1a]
    simp [publishAlert, hz]
  refine ⟨h2s.trans h1s.symm, ?_, ?_⟩
  · rw [h2s, List.countP_append]
    simp [hnew]
  · rw [h2a, List.countP_append, List.countP_append]
    simp [hlog, detectMsg]

/-- Witness for C3 (amended) at the empty observer state and the sample
survivor. -/
theorem c3_amended_witness :
    ((⟨[], []⟩ : ObserverState).survivors.countP
        (fun t => t.id = sampleSurvivor.id) = 0 ∧
      (⟨[], []⟩ : ObserverState).alerts.length ≤ 18 ∧
      (⟨[], []⟩ : ObserverState).alerts.countP
        (fun a => a.type = "SURVIVOR_DETECTED") = 0) ∧
    ((handleAlert (handleAlert ⟨[], []⟩ (detectMsg sampleSurvivor))
        (detectMsg sampleSurvivor)).survivors =
      (handleAlert ⟨[], []⟩ (detectMsg sampleSurvivor)).survivors ∧
    (handleAlert (handleAlert ⟨[], []⟩ (detectMsg sampleSurvivor))
        (detectMsg sampleSurvivor)).survivors.countP
      (fun t => t.id = sampleSurvivor.id) = 1 ∧
    (handleAlert (handleAlert ⟨[], []⟩ (detectMsg sampleSurvivor))
        (detectMsg sampleSurvivor)).alerts.countP
      (fun a => a.type = "SURVIVOR_DETECTED") = 2) :=
  ⟨⟨by decide, by decide, by decide⟩,
    c3_amended ⟨[], []⟩ sampleSurvivor (by decide) (by decide) (by decide)⟩

theorem getD_map_default {α : Type} [Inhabited α] (l : List α) (f : α → α)
    (i : Nat) (h : i < l.length) :
    (l.map f).getD i default = f (l.getD i default) := by
  rw [List.getD_eq_getElem _ _ (by simpa using h), List.getD_eq_getElem _ _ h]
  simp

theorem applyRescue_idem (l : List Survivor) (sid did : String) :
    applyRescue (applyRescue l sid did) sid did = applyRescue l sid did := by
  unfold applyRescue
  rw [List.map_map]
  apply List.map_congr_left
  intro s _
  by_cases h : s.id = sid <;> simp [Function.comp, h]

/-- Counterexample to C7: a survivor rescued by drone D-1 receives a second
RESCUE_NEEDED event naming drone D-2, and the stored rescuing-drone field is
overwritten to D-2 instead of keeping the value set by the first event. -/
theorem c7_counterexample :
    ((handleAlert (handleAlert ⟨[], [sampleSurvivor]⟩ (rescueMsg "S-1" "D-1"))
        (rescueMsg "S-1" "D-2")).survivors.map (fun s => s.rescue_drone)) =
      [some "D-2"] ∧
    ((handleAlert ⟨[], [sampleSurvivor]⟩ (rescueMsg "S-1" "D-1")).survivors.map
      (fun s => s.rescue_drone)) = [some "D-1"] ∧
    ¬ ((some "D-2" : Option String) = some "D-1") := by
  decide

/-- C7 (amended): the rescued flag is one-directional (a rescued record
stays rescued under any further RESCUE_NEEDED event) and replaying the
identical rescue event is a no-op on the survivor list; but a matching
rescue event always stores ITS drone id in the rescuing-drone field, so a
second event with a different drone id overwrites the value set by the
first. -/
theorem c7_amended (st : ObserverState) (sid did : String) (i : Nat)
    (hres : (st.survivors.getD i default).rescued = true) :
    ((handleAlert st (rescueMsg sid did)).survivors.getD i default).rescued
      = true ∧
    (handleAlert (handleAlert st (rescueMsg sid did))
        (rescueMsg sid did)).survivors =
      (handleAlert st (rescueMsg sid did)).survivors ∧
    ((st.survivors.getD i default).id = sid →
      ((handleAlert st
        (rescueMsg sid did)).survivors.getD i default).rescue_drone
        = some did) := by
  have h1 : (handleAlert st (rescueMsg sid did)).survivors =
      applyRescue st.survivors sid did := by
    rw [handleAlert_rescue]
  have h2 : (handleAlert (handleAlert st (rescueMsg sid did))
      (rescueMsg sid did)).survivors =
      (handleAlert st (rescueMsg sid did)).survivors := by
    rw [handleAlert_rescue (handleAlert st (rescueMsg sid did)), h1,
      applyRescue_idem]
  by_cases hi : i < st.survivors.length
  · have hmap := getD_map_default st.survivors
      (fun s => if s.id = sid
        then { s with rescued := true, rescue_drone := some did } else s) i hi
    refine ⟨?_, h2, ?_⟩
    · rw [h1]
      unfold applyRescue
      rw [hmap]
      dsimp only
      by_cases h : (st.survivors.getD i default).id = sid
      · rw [if_pos h]
      · rw [if_neg h]
        exact hres
    · intro hid
      rw [h1]
      unfold applyRescue
      rw [hmap]
      dsimp only
      rw [if_pos hid]
  · exfalso
    rw [List.getD_eq_default _ _ (by omega)] at hres
    exact absurd hres (by decide)

/-- A rescued sample survivor used by the C7 witness. -/
def rescuedSurvivor : Survivor :=
  { sampleSurvivor with rescued := true, rescue_drone := some "D-0" }

/-- Witness for C7 (amended) at a concrete already-rescued survivor. -/
theorem c7_amended_witness :
    (((⟨[], [rescuedSurvivor]⟩ : ObserverState).survivors.getD 0
        default).rescued = true) ∧
    (((handleAlert ⟨[], [rescuedSurvivor]⟩
        (rescueMsg "S-1" "D-9")).survivors.getD 0 default).rescued = true ∧
    (handleAlert (handleAlert ⟨[], [rescuedSurvivor]⟩ (rescueMsg "S-1" "D-9"))
        (rescueMsg "S-1" "D-9")).survivors =
      (handleAlert ⟨[], [rescuedSurvivor]⟩ (rescueMsg "S-1" "D-9")).survivors ∧
    (((⟨[], [rescuedSurvivor]⟩ : ObserverState).survivors.getD 0
        default).id = "S-1" →
      ((handleAlert ⟨[], [rescuedSurvivor]⟩
        (rescueMsg "S-1" "D-9")).survivors.getD 0 default).rescue_drone
        = some "D-9")) :=
  ⟨by decide, c7_amended ⟨[], [rescuedSurvivor]⟩ "S-1" "D-9" 0 (by decide)⟩

/-- The state of the `throttle` closure from App.jsx: the captured `last`
timestamp (`let last = 0`) plus, for the embedding, the log of arguments the
wrapped `fn` has been invoked on (each invocation is one applied drones
state update). -/
structure ThrottleState (α : Type) where
  last : Nat
  applied : List α
deriving DecidableEq

/-- One call of the throttled function: `if (now - last > delay) { last =
now; fn(...args); }`, with `Date.now()` passed explicitly as `now`. -/
def throttleStep {α : Type} (delay : Nat) (st : ThrottleState α)
    (now : Nat) (arg : α) : ThrottleState α :=
  if delay < now - st.last then { last := now, applied := st.applied ++ [arg] }
  else st

/-- A sequence of timestamped calls fed through the throttle wrapper. -/
def throttleRun {α : Type} (delay : Nat) (st : ThrottleState α)
    (events : List (Nat × α)) : ThrottleState α :=
  events.foldl (fun s e => throttleStep delay s e.1 e.2) st

/-- `throttledDroneUpdate = throttle(handler, 100)`: the 100 ms throttle the
`drone_update` socket handler routes through. -/
def throttledDroneUpdate {α : Type} (st : ThrottleState α)
    (events : List (Nat × α)) : ThrottleState α :=
  throttleRun 100 st events

theorem throttleRun_no_fire {α : Type} (st : ThrottleState α)
    (events : List (Nat × α)) (h : ∀ e ∈ events, e.1 ≤ st.last + 100) :
    throttledDroneUpdate st events = st := by
  induction events with
  | nil => rfl
  | cons e es ih =>
    have hstep : throttleStep 100 st e.1 e.2 = st := by
      unfold throttleStep
      rw [if_neg (by have := h e (List.mem_cons_self e es); omega)]
    show throttledDroneUpdate (throttleStep 100 st e.1 e.2) es = st
    rw [hstep]
    exact ih (fun e' he' => h e' (List.mem_cons_of_mem e he'))

/-- Counterexample to C4: two `drone_update` events at t=200 and t=250 fall
in one 100 ms interval; exactly one update is applied, but it is the FIRST
event's payload (1), not the latest (2) — the throttle is leading-edge with
no trailing flush. -/
theorem c4_counterexample :
    (throttledDroneUpdate ⟨0, ([] : List Nat)⟩
      [(200, 1), (250, 2)]).applied = [1] ∧
    ¬ (throttledDroneUpdate ⟨0, ([] : List Nat)⟩
      [(200, 1), (250, 2)]).applied = [2] := by
  decide

/-- C4 (amended): a burst of N ≥ 1 `drone_update` events inside one 100 ms
throttle interval results in exactly one applied state update, and the
applied update reflects the FIRST event of the burst; the later events of
the burst are dropped (leading-edge throttle without trailing flush). -/
theorem c4_amended {α : Type} (st : ThrottleState α) (t0 : Nat) (v0 : α)
    (rest : List (Nat × α)) (hfire : 100 < t0 - st.last)
    (hburst : ∀ e ∈ rest, e.1 ≤ t0 + 100) :
    (throttledDroneUpdate st ((t0, v0) :: rest)).applied =
      st.applied ++ [v0] ∧
    (throttledDroneUpdate st ((t0, v0) :: rest)).last = t0 := by
  have hstep : throttleStep 100 st t0 v0 =
      { last := t0, applied := st.applied ++ [v0] } := by
    unfold throttleStep
    rw [if_pos hfire]
  have hrun : throttledDroneUpdate st ((t0, v0) :: rest) =
      { last := t0, applied := st.applied ++ [v0] } := by
    show throttledDroneUpdate (throttleStep 100 st t0 v0) rest = _
    rw [hstep]
    exact throttleRun_no_fire _ rest (by simpa using hburst)
  rw [hrun]
  exact ⟨rfl, rfl⟩

/-- Witness for C4 (amended): a three-event burst at t=200, 250, 290 on a
fresh throttle applies exactly the first payload 7. -/
theorem c4_amended_witness :
    (100 < 200 - (⟨0, ([] : List Nat)⟩ : ThrottleState Nat).last ∧
      ∀ e ∈ [((250 : Nat), (8 : Nat)), (290, 9)], e.1 ≤ 200 + 100) ∧
    ((throttledDroneUpdate (⟨0, []⟩ : ThrottleState Nat)
        [(200, 7), (250, 8), (290, 9)]).applied = [] ++ [7] ∧
      (throttledDroneUpdate (⟨0, []⟩ : ThrottleState Nat)
        [(200, 7), (250, 8), (290, 9)]).last = 200) :=
  ⟨⟨by decide, by decide⟩,
    c4_amended ⟨0, []⟩ 200 7 [(250, 8), (290, 9)] (by decide) (by decide)⟩

/-- Arduino `constrain(amt, low, high)`: `low` if `amt < low`, `high` if
`amt > high`, else `amt`. -/
def constrain (amt low high : Int) : Int :=
  if amt < low then low else if high < amt then high else amt

/-- The firmware's `setMotors` Quad-X mixing: the four motor sums, each
clamped into [0, 255] before `analogWrite`; the result tuple is
(m1, m2, m3, m4) = (FL, FR, BL, BR). -/
def setMotors (throttle pitch roll yaw : Int) : Int × Int × Int × Int :=
  (constrain (throttle + pitch + roll + yaw) 0 255,
   constrain (throttle + pitch - roll - yaw) 0 255,
   constrain (throttle - pitch + roll - yaw) 0 255,
   constrain (throttle - pitch - roll + yaw) 0 255)

theorem constrain_mem (amt : Int) : 0 ≤ constrain amt 0 255 ∧
    constrain amt 0 255 ≤ 255 := by
  unfold constrain
  split_ifs <;> omega

/-- C9: whatever integer throttle/pitch/roll/yaw the firmware mixes, every
one of the four PWM values produced by `setMotors` lies within [0, 255]. -/
theorem c9_setMotors_clamped (throttle pitch roll yaw : Int) :
    (0 ≤ (setMotors throttle pitch roll yaw).1 ∧
      (setMotors throttle pitch roll yaw).1 ≤ 255) ∧
    (0 ≤ (setMotors throttle pitch roll yaw).2.1 ∧
      (setMotors throttle pitch roll yaw).2.1 ≤ 255) ∧
    (0 ≤ (setMotors throttle pitch roll yaw).2.2.1 ∧
      (setMotors throttle pitch roll yaw).2.2.1 ≤ 255) ∧
    (0 ≤ (setMotors throttle pitch roll yaw).2.2.2 ∧
      (setMotors throttle pitch roll yaw).2.2.2 ≤ 255) :=
  ⟨constrain_mem _, constrain_mem _, constrain_mem _, constrain_mem _⟩

/-- The RescueDashboard sort comparator, as a boolean "a sorts no later
than b" relation: `(a, b) => { if (a.rescued !== b.rescued) return
a.rescued ? 1 : -1; return b.confidence - a.confidence; }` — the comparator
is ≤ 0 exactly when this is true. -/
def survivorLE (a b : Survivor) : Bool :=
  if a.rescued = b.rescued then decide (b.confidence ≤ a.confidence)
  else !a.rescued

/-- `[...survivors].sort(comparator)` from RescueDashboard.jsx, modelled as
a merge sort by the comparator relation. -/
def sortedSurvivors (survivors : List Survivor) : List Survivor :=
  survivors.mergeSort survivorLE

theorem survivorLE_trans (a b c : Survivor) (hab : survivorLE a b = true)
    (hbc : survivorLE b c = true) : survivorLE a c = true := by
  unfold survivorLE at *
  cases ha : a.rescued <;> cases hb : b.rescued <;> cases hc : c.rescued <;>
    simp_all <;> linarith

theorem survivorLE_total (a b : Survivor) :
    (survivorLE a b || survivorLE b a) = true := by
  unfold survivorLE
  cases ha : a.rescued <;> cases hb : b.rescued <;> simp_all
  · exact le_total b.confidence a.confidence
  · exact (le_total a.confidence b.confidence).symm

/-- C10: the dashboard's displayed list is a permutation of the survivor
list (the records themselves are untouched values of the input), in which
a rescued record never precedes an unrescued one — so every unrescued
survivor precedes every rescued one — and records of equal rescued status
appear in non-increasing order of detection confidence. -/
theorem c10_dashboard_sort (l : List Survivor) :
    (sortedSurvivors l).Perm l ∧
    List.Pairwise (fun a b => (a.rescued = true → b.rescued = true) ∧
      (a.rescued = b.rescued → b.confidence ≤ a.confidence))
      (sortedSurvivors l) := by
  refine ⟨List.mergeSort_perm l survivorLE, ?_⟩
  have hs := List.sorted_mergeSort survivorLE_trans survivorLE_total l
  refine hs.imp ?_
  intro a b hab
  unfold survivorLE at hab
  by_cases h : a.rescued = b.rescued
  · rw [if_pos h] at hab
    exact ⟨fun ha => h ▸ ha, fun _ => by simpa using hab⟩
  · rw [if_neg h] at hab
    have ha : a.rescued = false := by simpa using hab
    refine ⟨fun hat => ?_, fun heq => absurd heq h⟩
    rw [hat] at ha
    exact absurd ha (by simp)

/-- A drone's live state in the fleet store (id, display name, position,
battery fraction, status string, control mode "auto"/"manual", waypoint
list and index). -/
structure DroneState where
  id : String
  name : String
  x : Int
  y : Int
  battery : Rat
  status : String
  control_mode : String
  waypoints : List (Int × Int)
  waypoint_index : Nat
deriving DecidableEq, Inhabited

/-- Modelled from the spec: the backend FleetStateStore's `upsertTelemetry`
(the Python backend `main.py` is not among the sources; spec §4.2). It
creates the drone on first sight (auto mode, no waypoints), and otherwise
updates position/battery/status — except that a drone currently in manual
mode rejects the autonomous-source update silently (no field changes). -/
def upsertTelemetry (fleet : List DroneState) (id0 : String) (x y : Int)
    (battery : Rat) (status : String) : List DroneState :=
  if fleet.any (fun d => d.id = id0) then
    fleet.map (fun d =>
      if d.id = id0 then
        if d.control_mode = "manual" then d
        else { d with x := x, y := y, battery := battery, status := status }
      else d)
  else
    let newDrone : DroneState :=
      { id := id0, name := id0, x := x, y := y, battery := battery,
        status := status, control_mode := "auto", waypoints := [],
        waypoint_index := 0 }
    fleet ++ [newDrone]

/-- Modelled from the spec: the backend FleetStateStore's `setWaypoints`
(the Python backend `main.py` is not among the sources; spec §4.2): storing
a waypoint list is itself the trigger for the implicit switch to manual
mode ("go here" implies "take control"), so the drone's mode becomes
manual and the list is stored regardless of the mode at call time. -/
def setWaypoints (fleet : List DroneState) (id0 : String)
    (ws : List (Int × Int)) : List DroneState :=
  fleet.map (fun d =>
    if d.id = id0 then { d with control_mode := "manual", waypoints := ws }
    else d)

/-- C2: an autonomous-source telemetry upsert targeting a drone that is in
manual mode leaves the fleet store unchanged — the update is rejected
silently and no field of the stored drone state is modified. -/
theorem c2_manual_ignores_autonomous (fleet : List DroneState) (id0 : String)
    (x y : Int) (battery : Rat) (status : String)
    (hmanual : ∀ d ∈ fleet, d.id = id0 → d.control_mode = "manual")
    (hpresent : fleet.any (fun d => d.id = id0) = true) :
    upsertTelemetry fleet id0 x y battery status = fleet := by
  unfold upsertTelemetry
  rw [if_pos hpresent]
  have hid : ∀ d ∈ fleet, (if d.id = id0 then
      (if d.control_mode = "manual" then d
        else { d with x := x, y := y, battery := battery, status := status })
      else d) = d := by
    intro d hd
    by_cases h : d.id = id0
    · rw [if_pos h, if_pos (hmanual d hd h)]
    · rw [if_neg h]
  rw [List.map_congr_left hid]
  simp

/-- A manual-mode drone holding waypoint (100,100), for the C2 witness. -/
def manualDrone : DroneState :=
  { id := "Drone-1", name := "Drone-1", x := 100, y := 100,
    battery := 9 / 10, status := "idle", control_mode := "manual",
    waypoints := [(100, 100)], waypoint_index := 0 }

/-- Witness for C2: an autonomous report moving manual-mode Drone-1 to
(400, 500) leaves the stored state untouched. -/
theorem c2_manual_ignores_autonomous_witness :
    ((∀ d ∈ [manualDrone], d.id = "Drone-1" → d.control_mode = "manual") ∧
      [manualDrone].any (fun d => d.id = "Drone-1") = true) ∧
    upsertTelemetry [manualDrone] "Drone-1" 400 500 (1 / 2) "scanning" =
      [manualDrone] :=
  ⟨⟨by decide, by decide⟩,
    c2_manual_ignores_autonomous [manualDrone] "Drone-1" 400 500 (1 / 2)
      "scanning" (by decide) (by decide)⟩

/-- C6: issuing `set_waypoints` with a non-empty list for a drone whose
mode is currently auto is not dropped: the drone's entry is still present
(the fleet keeps its length), its control mode switches to manual, and the
given waypoint list is stored. -/
theorem c6_set_waypoints_implicit_manual (fleet : List DroneState)
    (id0 : String) (ws : List (Int × Int)) (i : Nat)
    (hi : i < fleet.length) (hid : (fleet.getD i default).id = id0)
    (_hauto : (fleet.getD i default).control_mode = "auto")
    (_hne : ws ≠ []) :
    (setWaypoints fleet id0 ws).length = fleet.length ∧
    ((setWaypoints fleet id0 ws).getD i default).control_mode = "manual" ∧
    ((setWaypoints fleet id0 ws).getD i default).waypoints = ws := by
  have hmap := getD_map_default fleet
    (fun d => if d.id = id0
      then { d with control_mode := "manual", waypoints := ws } else d) i hi
  refine ⟨by simp [setWaypoints], ?_, ?_⟩ <;>
    · unfold setWaypoints
      rw [hmap]
      dsimp only
      rw [if_pos hid]

/-- An auto-mode drone used by the C6 witness. -/
def autoDrone : DroneState :=
  { id := "Drone-2", name := "Drone-2", x := 0, y := 0, battery := 1,
    status := "scanning", control_mode := "auto", waypoints := [],
    waypoint_index := 0 }

/-- Witness for C6: sending waypoints [(500,500)] to auto-mode Drone-2
switches it to manual and stores the list. -/
theorem c6_set_waypoints_implicit_manual_witness :
    ((0 : Nat) < [autoDrone].length ∧
      ([autoDrone].getD 0 default).id = "Drone-2" ∧
      ([autoDrone].getD 0 default).control_mode = "auto" ∧
      [((500 : Int), (500 : Int))] ≠ []) ∧
    ((setWaypoints [autoDrone] "Drone-2" [(500, 500)]).length =
        [autoDrone].length ∧
      ((setWaypoints [autoDrone] "Drone-2"
        [(500, 500)]).getD 0 default).control_mode = "manual" ∧
      ((setWaypoints [autoDrone] "Drone-2"
        [(500, 500)]).getD 0 default).waypoints = [(500, 500)]) :=
  ⟨⟨by decide, by decide, by decide, by decide⟩,
    c6_set_waypoints_implicit_manual [autoDrone] "Drone-2" [(500, 500)] 0
      (by decide) (by decide) (by decide) (by decide)⟩

end DroneFleet
